import Mathlib

/-!
Shallow embedding of the Edtronaut execution engine's core pipeline:
the status store (`db.ts`), the queue producer (`src/queue/producer.ts`),
the execution worker (`src/queue/worker.ts`) and the poll route of the
HTTP layer (`index.ts`).  External effects (MySQL writes, filesystem,
subprocess, timers) are modelled by an explicit environment describing
which external steps fail and what the subprocess produced; the handler
becomes a pure function from that environment to its observable trace of
effects.
-/

namespace Edtronaut

/-- Status enum of an execution row, from `db.ts` (`ExecutionStatus`). -/
inductive ExecutionStatus
  | QUEUED
  | RUNNING
  | COMPLETED
  | FAILED
  | TIMEOUT
deriving DecidableEq, Repr

/-- A status is terminal when it is COMPLETED, FAILED or TIMEOUT. -/
def ExecutionStatus.isTerminal : ExecutionStatus → Bool
  | .COMPLETED => true
  | .FAILED => true
  | .TIMEOUT => true
  | _ => false

/-- An execution row, from `db.ts` (`Execution`).  The audit timestamps
`created_at` / `updated_at` are omitted: no claim concerns them. -/
structure Execution where
  id : String
  session_id : String
  status : ExecutionStatus
  stdout : Option String
  stderr : Option String
  execution_time_ms : Option Nat
deriving DecidableEq, Repr

/-- The executions table: a list of rows, looked up by primary key. -/
abbrev Store := List Execution

/-- `DB.getExecution` (`db.ts`): `SELECT * FROM executions WHERE id = ?`,
first matching row or absent. -/
def DB.getExecution (s : Store) (id : String) : Option Execution :=
  s.find? (fun e => e.id = id)

/-- `DB.createExecution` (`db.ts`):
`INSERT INTO executions (id, session_id, status) VALUES (?, ?, 'QUEUED')`;
the remaining columns take their NULL defaults. -/
def DB.createExecution (s : Store) (id session_id : String) : Store :=
  s ++ [{ id := id, session_id := session_id, status := .QUEUED,
          stdout := none, stderr := none, execution_time_ms := none }]

/-- `DB.updateExecutionStatus` (`db.ts`): unconditional
`UPDATE executions SET status = ?, stdout = ?, stderr = ?,
execution_time_ms = ? WHERE id = ?` — last writer wins, no guard on the
current status. -/
def DB.updateExecutionStatus (s : Store) (id : String)
    (status : ExecutionStatus) (stdout stderr : Option String)
    (timeMs : Option Nat) : Store :=
  s.map (fun e =>
    if e.id = id then
      { e with status := status, stdout := stdout, stderr := stderr,
               execution_time_ms := timeMs }
    else e)

/-! ## Queue producer (`src/queue/producer.ts`) -/

/-- The per-job options passed to `executionQueue.add` in
`addExecutionJob`. -/
structure JobOptions where
  attempts : Nat
  backoffType : String
  backoffDelayMs : Nat
  removeOnComplete : Bool
  removeOnFail : Bool
deriving DecidableEq, Repr

/-- The job payload `{ executionId, language, code }`. -/
structure JobPayload where
  executionId : String
  language : String
  code : String
deriving DecidableEq, Repr

/-- An observable effect of the producer: either an append to the queue
or an access to the status store. -/
inductive ProducerEffect
  | queueAdd (name : String) (payload : JobPayload) (opts : JobOptions)
  | statusStoreRead (id : String)
  | statusStoreWrite (id : String)
deriving DecidableEq, Repr

/-- `addExecutionJob` (`producer.ts`): a single `executionQueue.add`
call with job name `"execute"`, the payload fields, and the literal
options object; it performs no other effect. -/
def addExecutionJob (executionId language code : String) :
    List ProducerEffect :=
  [ProducerEffect.queueAdd "execute"
    { executionId := executionId, language := language, code := code }
    { attempts := 2, backoffType := "exponential", backoffDelayMs := 1000,
      removeOnComplete := true, removeOnFail := false }]

/-! ## Execution worker (`src/queue/worker.ts`) -/

/-- `EXECUTION_TIMEOUT_MS` constant of `worker.ts`. -/
def EXECUTION_TIMEOUT_MS : Nat := 5000

/-- `TEMP_DIR`: `join(process.cwd(), "temp_execution")`, modelled with a
fixed working directory. -/
def TEMP_DIR : String := "temp_execution"

/-- The temp file name: `executionId.py` for python, `executionId.js`
for every other tag. -/
def fileName (executionId language : String) : String :=
  executionId ++ "." ++ (if language = "python" then "py" else "js")

/-- `filePath = join(TEMP_DIR, fileName)`. -/
def filePath (executionId language : String) : String :=
  TEMP_DIR ++ "/" ++ fileName executionId language

/-- The interpreter table of `worker.ts`: python → python3, javascript
and typescript → bun, anything else unresolvable. -/
def resolveCmd (language path : String) : Option (List String) :=
  if language = "python" then some ["python3", path]
  else if language = "javascript" ∨ language = "typescript" then
    some ["bun", path]
  else none

/-- Environment of one handler run: which external operations fail, and
what the subprocess produced.  `elapsedMs` is the `Date.now() - startTime`
sample on the success path, `elapsedMsAtFailure` the sample taken inside
the catch block. -/
structure WorkerEnv where
  runningWriteFails : Bool
  writeFileFails : Bool
  spawnFails : Bool
  timerFiresFirst : Bool
  procStdout : String
  procStderr : String
  exitCode : Nat
  elapsedMs : Nat
  elapsedMsAtFailure : Nat
  completedWriteFails : Bool
  catchWriteFails : Bool
  unlinkFails : Bool
deriving DecidableEq, Repr

/-- One persisted call to `db.updateExecutionStatus`. -/
structure StatusWrite where
  id : String
  status : ExecutionStatus
  stdout : Option String
  stderr : Option String
  timeMs : Option Nat
deriving DecidableEq, Repr

/-- Observable events of a handler run. -/
inductive Event
  | dbWrite (w : StatusWrite)
  | fsWriteFile (path content : String)
  | spawn (cmd : List String)
  | kill
  | fsUnlink (path : String)
  | logCleanupError (path : String)
deriving DecidableEq, Repr

/-- Whether the handler returned normally or let an exception escape to
the queue layer. -/
inductive HandlerResult
  | ok
  | thrown (msg : String)
deriving DecidableEq, Repr

/-- Result of a full handler run: outcome, event trace, and whether the
temp file still exists afterwards. -/
structure HandlerOutput where
  result : HandlerResult
  events : List Event
  fileExists : Bool
deriving DecidableEq, Repr

/-- Outcome of the `try` block: events so far, whether the temp file was
materialised, and the message of the exception that escaped the block,
if any. -/
structure TryOutcome where
  events : List Event
  fileWritten : Bool
  err : Option String
deriving DecidableEq, Repr

/-- The fixed sentinel message of the timeout rejection in `worker.ts`. -/
def timeoutSentinel : String := "Execution Timed Out"

/-- The `try { ... }` block of the handler in `worker.ts`: write the
source file, resolve the interpreter (throwing
`Unsupported language: tag` on an unknown tag), spawn, race the process
against the 5000 ms timer (killing and throwing the sentinel if the timer
wins), then drain the streams and persist COMPLETED — with
`stderr || null` turning an empty captured stderr into NULL. -/
def tryBlock (env : WorkerEnv) (executionId language code : String) :
    TryOutcome :=
  if env.writeFileFails then
    { events := [], fileWritten := false, err := some "writeFile failed" }
  else
    let path := filePath executionId language
    let ev0 := [Event.fsWriteFile path code]
    match resolveCmd language path with
    | none =>
      { events := ev0, fileWritten := true,
        err := some ("Unsupported language: " ++ language) }
    | some cmd =>
      if env.spawnFails then
        { events := ev0, fileWritten := true, err := some "spawn failed" }
      else
        let ev1 := ev0 ++ [Event.spawn cmd]
        if env.timerFiresFirst then
          { events := ev1 ++ [Event.kill], fileWritten := true,
            err := some timeoutSentinel }
        else
          let w : StatusWrite :=
            { id := executionId, status := .COMPLETED,
              stdout := some env.procStdout,
              stderr := if env.procStderr = "" then none
                        else some env.procStderr,
              timeMs := some env.elapsedMs }
          if env.completedWriteFails then
            { events := ev1, fileWritten := true,
              err := some "db write failed" }
          else
            { events := ev1 ++ [Event.dbWrite w], fileWritten := true,
              err := none }

/-- The initial `db.updateExecutionStatus(executionId, "RUNNING", null,
null, null)` call of the handler. -/
def runningWrite (executionId : String) : StatusWrite :=
  { id := executionId, status := .RUNNING, stdout := none, stderr := none,
    timeMs := none }

/-- The handler up to (and including) the catch block of `worker.ts`:
the RUNNING status write precedes the `try` block, so its failure
escapes uncaught; the catch block classifies the caught message as
TIMEOUT when it equals the sentinel and FAILED otherwise, persisting it
as stderr with a NULL stdout — and a failure of that terminal write also
escapes. -/
def handlerBody (env : WorkerEnv) (executionId language code : String) :
    HandlerOutput :=
  if env.runningWriteFails then
    { result := .thrown "db write failed", events := [], fileExists := false }
  else
    let t := tryBlock env executionId language code
    let ev := Event.dbWrite (runningWrite executionId) :: t.events
    match t.err with
    | none => { result := .ok, events := ev, fileExists := t.fileWritten }
    | some msg =>
      if env.catchWriteFails then
        { result := .thrown "db write failed", events := ev,
          fileExists := t.fileWritten }
      else
        { result := .ok,
          events := ev ++ [Event.dbWrite
            { id := executionId,
              status := if msg = timeoutSentinel then .TIMEOUT else .FAILED,
              stdout := none, stderr := some msg,
              timeMs := some env.elapsedMsAtFailure }],
          fileExists := t.fileWritten }

/-- The `finally` block of `worker.ts`: if the temp file exists, unlink
it; an unlink failure is logged and swallowed.  (When the handler threw
before entering `try`, no file exists and this is a no-op, matching the
skipped `finally`.) -/
def finallyCleanup (unlinkFails : Bool) (path : String)
    (post : HandlerOutput) : HandlerOutput :=
  if post.fileExists then
    if unlinkFails then
      { post with events := post.events ++ [Event.logCleanupError path],
                  fileExists := true }
    else
      { post with events := post.events ++ [Event.fsUnlink path],
                  fileExists := false }
  else post

/-- The full job handler of `executionWorker` in `worker.ts`: body, then
the unconditional cleanup. -/
def executionWorker (env : WorkerEnv) (executionId language code : String) :
    HandlerOutput :=
  finallyCleanup env.unlinkFails (filePath executionId language)
    (handlerBody env executionId language code)

/-- The status-store writes of a run, in order. -/
def HandlerOutput.dbWrites (o : HandlerOutput) : List StatusWrite :=
  o.events.filterMap (fun e =>
    match e with
    | .dbWrite w => some w
    | _ => none)

/-- The statuses persisted by a run, in order. -/
def HandlerOutput.statusTrace (o : HandlerOutput) : List ExecutionStatus :=
  o.dbWrites.map (fun w => w.status)

/-- Monotonicity of a status trace: once a terminal status appears,
every later entry equals it. -/
def noExitFromTerminal : List ExecutionStatus → Bool
  | [] => true
  | s :: rest =>
    ((!s.isTerminal) || rest.all (fun x => x = s)) && noExitFromTerminal rest

/-- Applying one persisted write to the store. -/
def applyStatusWrite (s : Store) (w : StatusWrite) : Store :=
  DB.updateExecutionStatus s w.id w.status w.stdout w.stderr w.timeMs

/-- Applying a run's writes to the store, in order. -/
def applyStatusWrites (s : Store) (ws : List StatusWrite) : Store :=
  ws.foldl applyStatusWrite s

/-- An environment where nothing external fails and the subprocess exits
promptly and cleanly. -/
def benignEnv : WorkerEnv :=
  { runningWriteFails := false, writeFileFails := false, spawnFails := false,
    timerFiresFirst := false, procStdout := "hi\n", procStderr := "",
    exitCode := 0, elapsedMs := 42, elapsedMsAtFailure := 43,
    completedWriteFails := false, catchWriteFails := false,
    unlinkFails := false }

/-- Environment where the RUNNING status write rejects. -/
def runFailEnv : WorkerEnv := { benignEnv with runningWriteFails := true }

/-- Environment where the subprocess times out and the catch-side
terminal status write rejects. -/
def stuckEnv : WorkerEnv :=
  { benignEnv with timerFiresFirst := true, catchWriteFails := true }

/-- The environment of Scenario B: the subprocess (python on a source
file with an unterminated string) exits promptly with exit code 1 and a
syntax error on stderr. -/
def syntaxErrorEnv : WorkerEnv :=
  { benignEnv with procStdout := "",
                   procStderr := "SyntaxError: unterminated string literal",
                   exitCode := 1, elapsedMs := 50 }

/-- Environment where the 5000 ms timer fires before the subprocess
exits, with partial output on both streams. -/
def timeoutEnv : WorkerEnv :=
  { benignEnv with timerFiresFirst := true,
                   procStdout := "partial out", procStderr := "partial err" }

/-- Status writes persisted when the at-least-once queue delivers the
same job to the handler twice. -/
def redeliveredTrace (env : WorkerEnv) (executionId language code : String) :
    List ExecutionStatus :=
  (executionWorker env executionId language code).statusTrace
    ++ (executionWorker env executionId language code).statusTrace

/-! ## Poll route (`index.ts`, `GET /executions/:id`) -/

/-- The JSON shapes the poll route can answer with: a 404 error object,
the terminal shape carrying coalesced output strings, or the pending
shape carrying only id and status. -/
inductive PollResponse
  | notFound (error : String)
  | terminalResult (execution_id : String) (status : ExecutionStatus)
      (stdout stderr : String) (execution_time_ms : Option Nat)
  | pending (execution_id : String) (status : ExecutionStatus)
deriving DecidableEq, Repr

/-- JavaScript `x || ""` on a string-or-null value: NULL and the empty
string both coalesce to the empty string. -/
def orEmpty : Option String → String
  | none => ""
  | some s => s

/-- The `GET /executions/:id` handler of `index.ts`, applied to the row
`db.getExecution` returned. -/
def getExecutionRoute (exec : Option Execution) : PollResponse :=
  match exec with
  | none => .notFound "Execution not found"
  | some e =>
    if e.status = .COMPLETED ∨ e.status = .FAILED ∨ e.status = .TIMEOUT then
      .terminalResult e.id e.status (orEmpty e.stdout) (orEmpty e.stderr)
        e.execution_time_ms
    else
      .pending e.id e.status

example :
    (executionWorker benignEnv "e1" "python" "print(1)").statusTrace
      = [.RUNNING, .COMPLETED] := by decide

example :
    (executionWorker benignEnv "e1" "ruby" "puts 1").statusTrace
      = [.RUNNING, .FAILED] := by decide

example :
    (executionWorker { benignEnv with timerFiresFirst := true }
      "e1" "python" "loop").statusTrace = [.RUNNING, .TIMEOUT] := by decide

/-! ## Helper lemmas -/

theorem isTerminal_QUEUED : ExecutionStatus.QUEUED.isTerminal = false := rfl

theorem isTerminal_RUNNING : ExecutionStatus.RUNNING.isTerminal = false := rfl

theorem isTerminal_COMPLETED :
    ExecutionStatus.COMPLETED.isTerminal = true := rfl

theorem isTerminal_FAILED : ExecutionStatus.FAILED.isTerminal = true := rfl

theorem isTerminal_TIMEOUT : ExecutionStatus.TIMEOUT.isTerminal = true := rfl

/-- The `finally` block never changes the handler's outcome. -/
theorem result_finallyCleanup (b : Bool) (path : String) (o : HandlerOutput) :
    (finallyCleanup b path o).result = o.result := by
  unfold finallyCleanup
  split
  · split <;> rfl
  · rfl

/-- The `finally` block performs no status-store write. -/
theorem dbWrites_finallyCleanup (b : Bool) (path : String)
    (o : HandlerOutput) :
    (finallyCleanup b path o).dbWrites = o.dbWrites := by
  unfold finallyCleanup HandlerOutput.dbWrites
  split
  · split <;> simp
  · rfl

/-- When the unlink succeeds, no temp file survives the `finally`
block. -/
theorem fileExists_finallyCleanup_false (path : String) (o : HandlerOutput) :
    (finallyCleanup false path o).fileExists = false := by
  unfold finallyCleanup
  split
  · simp
  · simp_all

/-- The body of the handler never reads the unlink-failure flag. -/
theorem handlerBody_unlink_irrel (env : WorkerEnv) (b : Bool)
    (executionId language code : String) :
    handlerBody { env with unlinkFails := b } executionId language code
      = handlerBody env executionId language code := by
  obtain ⟨rwf, wff, spf, tff, pso, pse, ec, em, ef, cwf, chf, ulf⟩ := env
  rfl

/-- The message thrown for an unsupported language is never the timeout
sentinel, whatever the tag: the prefix alone is longer than the
sentinel. -/
theorem unsupported_msg_ne_sentinel (s : String) :
    "Unsupported language: " ++ s ≠ timeoutSentinel := by
  intro h
  have hlen := congrArg String.length h
  rw [String.length_append] at hlen
  have h1 : ("Unsupported language: " : String).length = 22 := rfl
  have h2 : timeoutSentinel.length = 19 := rfl
  omega

/-- The catch block's classification is terminal whichever way the
sentinel comparison goes. -/
theorem isTerminal_classify (c : Prop) [Decidable c] :
    ExecutionStatus.isTerminal (if c then .TIMEOUT else .FAILED) = true := by
  split <;> rfl

/-! ## Claims -/

/-- Claim C9 (confirmed): `addExecutionJob executionId language code`
appends exactly one job, named `execute`, with payload
`{executionId, language, code}` and options `attempts = 2`, exponential
backoff with initial delay 1000 ms, `removeOnComplete = true`,
`removeOnFail = false`; and every effect it produces is a queue append —
in particular it never reads or writes the status store. -/
theorem C9_enqueue_single_job (executionId language code : String) :
    addExecutionJob executionId language code
      = [ProducerEffect.queueAdd "execute"
          { executionId := executionId, language := language, code := code }
          { attempts := 2, backoffType := "exponential",
            backoffDelayMs := 1000, removeOnComplete := true,
            removeOnFail := false }]
    ∧ (addExecutionJob executionId language code).all
        (fun e => match e with
          | .queueAdd _ _ _ => true
          | .statusStoreRead _ => false
          | .statusStoreWrite _ => false) = true :=
  ⟨rfl, rfl⟩

/-- Claim C10 (confirmed): the poll route answers 404 when the execution
is absent; answers the terminal shape — with stdout and stderr coalesced
from NULL to the empty string and with `execution_time_ms` — exactly when
the stored status is terminal; and otherwise answers only the id and
status. -/
theorem C10_poll_route (e : Execution) :
    getExecutionRoute none = .notFound "Execution not found"
    ∧ (e.status.isTerminal = true →
        getExecutionRoute (some e)
          = .terminalResult e.id e.status (orEmpty e.stdout)
              (orEmpty e.stderr) e.execution_time_ms)
    ∧ (e.status.isTerminal = false →
        getExecutionRoute (some e) = .pending e.id e.status) := by
  refine ⟨rfl, ?_, ?_⟩ <;>
    · intro h
      obtain ⟨i, sid, st, so, se, t⟩ := e
      cases st <;> simp_all [getExecutionRoute, ExecutionStatus.isTerminal]

/-- Witness for C10 at a concrete terminal row with NULL stdout. -/
theorem C10_poll_route_witness :
    ExecutionStatus.COMPLETED.isTerminal = true
    ∧ getExecutionRoute
        (some { id := "e1", session_id := "s1", status := .COMPLETED,
                stdout := none, stderr := some "err",
                execution_time_ms := some 42 })
      = .terminalResult "e1" .COMPLETED "" "err" (some 42) :=
  ⟨rfl, (C10_poll_route _).2.1 rfl⟩

/-- Counterexample to claim C1 as stated: a failure of the RUNNING
status write — which sits before the `try` block — escapes the handler
uncaught; and after a timeout, a failure of the terminal status write in
the catch block also escapes, leaving RUNNING as the last persisted
status. -/
theorem C1_counterexample :
    (executionWorker runFailEnv "e1" "python" "x").result
      = HandlerResult.thrown "db write failed"
    ∧ (executionWorker stuckEnv "e1" "python" "x").result
        = HandlerResult.thrown "db write failed"
    ∧ (executionWorker stuckEnv "e1" "python" "x").statusTrace
        = [.RUNNING] := by
  decide

/-- Claim C1 as amended: provided the RUNNING status write and the
catch-side terminal status write themselves succeed, every exception
raised inside the `try` block (file write, interpreter resolution, spawn,
timeout, the COMPLETED write) is caught and converted into a terminal
status write, the handler returns normally, and the last persisted
status is terminal. -/
theorem C1_amended (env : WorkerEnv) (executionId language code : String)
    (h1 : env.runningWriteFails = false) (h2 : env.catchWriteFails = false) :
    (executionWorker env executionId language code).result = .ok
    ∧ ((executionWorker env executionId language code).statusTrace.getLast?).map
        ExecutionStatus.isTerminal = some true := by
  obtain ⟨rwf, wff, spf, tff, pso, pse, ec, em, ef, cwf, chf, ulf⟩ := env
  simp only at h1 h2
  subst h1 h2
  by_cases hp : language = "python" <;>
    by_cases hj : language = "javascript" <;>
      by_cases ht : language = "typescript" <;>
        cases wff <;> cases spf <;> cases tff <;> cases cwf <;> cases ulf <;>
          simp_all [executionWorker, handlerBody, finallyCleanup, tryBlock,
            resolveCmd, HandlerOutput.statusTrace, HandlerOutput.dbWrites,
            unsupported_msg_ne_sentinel, isTerminal_classify,
            isTerminal_QUEUED, isTerminal_RUNNING,
            isTerminal_COMPLETED, isTerminal_FAILED, isTerminal_TIMEOUT]

/-- Witness for C1 as amended: the benign environment with a concrete
job. -/
theorem C1_amended_witness :
    benignEnv.runningWriteFails = false ∧ benignEnv.catchWriteFails = false
    ∧ ((executionWorker benignEnv "e1" "python" "print(1)").result = .ok
       ∧ ((executionWorker benignEnv "e1" "python"
            "print(1)").statusTrace.getLast?).map
           ExecutionStatus.isTerminal = some true) :=
  ⟨rfl, rfl, C1_amended benignEnv "e1" "python" "print(1)" rfl rfl⟩

/-- Counterexample to claim C2 as stated: for the unrecognized tag
`ruby`, the handler writes the temporary source file (with a `.js`
extension) before resolving the interpreter, so a temp file for the
execution id is created; the execution still ends FAILED. -/
theorem C2_counterexample :
    Event.fsWriteFile (filePath "e1" "ruby") "puts 1"
      ∈ (executionWorker benignEnv "e1" "ruby" "puts 1").events
    ∧ (executionWorker benignEnv "e1" "ruby" "puts 1").statusTrace
        = [.RUNNING, .FAILED] := by
  decide

/-- Claim C2 as amended: for a job whose language tag is not python,
javascript or typescript, the handler persists FAILED with a message
naming the unrecognized tag and spawns no subprocess — but it first
materialises the temporary source file, which the cleanup step then
removes, so the file does not survive the handler. -/
theorem C2_amended (env : WorkerEnv) (executionId language code : String)
    (hpy : language ≠ "python") (hjs : language ≠ "javascript")
    (hts : language ≠ "typescript")
    (h1 : env.runningWriteFails = false) (h2 : env.writeFileFails = false)
    (h3 : env.catchWriteFails = false) (h4 : env.unlinkFails = false) :
    (executionWorker env executionId language code).dbWrites
      = [runningWrite executionId,
         { id := executionId, status := .FAILED, stdout := none,
           stderr := some ("Unsupported language: " ++ language),
           timeMs := some env.elapsedMsAtFailure }]
    ∧ (∀ cmd, Event.spawn cmd
        ∉ (executionWorker env executionId language code).events)
    ∧ Event.fsWriteFile (filePath executionId language) code
        ∈ (executionWorker env executionId language code).events
    ∧ (executionWorker env executionId language code).fileExists = false := by
  obtain ⟨rwf, wff, spf, tff, pso, pse, ec, em, ef, cwf, chf, ulf⟩ := env
  simp only at h1 h2 h3 h4
  subst h1 h2 h3 h4
  simp_all [executionWorker, handlerBody, finallyCleanup, tryBlock,
    resolveCmd, HandlerOutput.statusTrace, HandlerOutput.dbWrites,
    unsupported_msg_ne_sentinel]

/-- Witness for C2 as amended at language `ruby`. -/
theorem C2_amended_witness :
    ("ruby" : String) ≠ "python"
    ∧ (executionWorker benignEnv "e1" "ruby" "puts 1").dbWrites
        = [runningWrite "e1",
           { id := "e1", status := .FAILED, stdout := none,
             stderr := some ("Unsupported language: " ++ "ruby"),
             timeMs := some benignEnv.elapsedMsAtFailure }] :=
  ⟨by decide,
   (C2_amended benignEnv "e1" "ruby" "puts 1" (by decide) (by decide)
     (by decide) rfl rfl rfl rfl).1⟩

/-- Claim C3 names the intended behaviour (status FAILED, also asserted
by the repository's own e2e test 5, `Should handle Syntax Errors`), but
the code never inspects the exit code: on the Scenario B input the
handler persists COMPLETED with the captured stderr, not FAILED. -/
theorem C3_code_divergence :
    (executionWorker syntaxErrorEnv "e1" "python" "print(broken").statusTrace
      = [.RUNNING, .COMPLETED]
    ∧ (executionWorker syntaxErrorEnv "e1" "python"
        "print(broken").dbWrites.getLast?
        = some { id := "e1", status := .COMPLETED, stdout := some "",
                 stderr := some "SyntaxError: unterminated string literal",
                 timeMs := some 50 }
    ∧ ExecutionStatus.COMPLETED ≠ ExecutionStatus.FAILED := by
  decide

/-- Claim C4 (confirmed): when the subprocess exits before the timer and
no orchestration step fails, the handler persists COMPLETED with the
fully captured stdout and stderr (an empty captured stderr stored as
NULL, per `stderr || null`) and the measured duration, returns normally —
and the whole run is independent of the subprocess's exit code, which is
never inspected. -/
theorem C4_exit_before_timeout (env : WorkerEnv)
    (executionId language code : String) (n : Nat)
    (hl : language = "python" ∨ language = "javascript"
          ∨ language = "typescript")
    (h1 : env.runningWriteFails = false) (h2 : env.writeFileFails = false)
    (h3 : env.spawnFails = false) (h4 : env.timerFiresFirst = false)
    (h5 : env.completedWriteFails = false) :
    (executionWorker env executionId language code).dbWrites
      = [runningWrite executionId,
         { id := executionId, status := .COMPLETED,
           stdout := some env.procStdout,
           stderr := if env.procStderr = "" then none
                     else some env.procStderr,
           timeMs := some env.elapsedMs }]
    ∧ (executionWorker env executionId language code).result = .ok
    ∧ executionWorker { env with exitCode := n } executionId language code
        = executionWorker env executionId language code := by
  obtain ⟨rwf, wff, spf, tff, pso, pse, ec, em, ef, cwf, chf, ulf⟩ := env
  simp only at h1 h2 h3 h4 h5
  subst h1 h2 h3 h4 h5
  rcases hl with hl | hl | hl <;> subst hl <;> cases ulf <;>
    simp_all [executionWorker, handlerBody, finallyCleanup, tryBlock,
      resolveCmd, HandlerOutput.dbWrites]

/-- Witness for C4 in the benign environment. -/
theorem C4_exit_before_timeout_witness :
    (("python" : String) = "python" ∨ ("python" : String) = "javascript"
      ∨ ("python" : String) = "typescript")
    ∧ (executionWorker benignEnv "e1" "python" "print(1)").dbWrites
        = [runningWrite "e1",
           { id := "e1", status := .COMPLETED, stdout := some "hi\n",
             stderr := none, timeMs := some 42 }] :=
  ⟨Or.inl rfl,
   by simpa using
     (C4_exit_before_timeout benignEnv "e1" "python" "print(1)" 7
       (Or.inl rfl) rfl rfl rfl rfl rfl).1⟩

/-- Claim C5 (confirmed): when the timer fires first the handler kills
the subprocess and persists TIMEOUT with a NULL stdout and the fixed
sentinel string as stderr, independently of whatever the streams held —
the partial capture (quantified here as arbitrary `procStdout` /
`procStderr`) never reaches the store. -/
theorem C5_timeout (env : WorkerEnv) (executionId language code : String)
    (hl : language = "python" ∨ language = "javascript"
          ∨ language = "typescript")
    (h1 : env.runningWriteFails = false) (h2 : env.writeFileFails = false)
    (h3 : env.spawnFails = false) (h4 : env.timerFiresFirst = true)
    (h5 : env.catchWriteFails = false) :
    Event.kill ∈ (executionWorker env executionId language code).events
    ∧ (executionWorker env executionId language code).dbWrites
        = [runningWrite executionId,
           { id := executionId, status := .TIMEOUT, stdout := none,
             stderr := some timeoutSentinel,
             timeMs := some env.elapsedMsAtFailure }]
    ∧ (executionWorker env executionId language code).result = .ok := by
  obtain ⟨rwf, wff, spf, tff, pso, pse, ec, em, ef, cwf, chf, ulf⟩ := env
  simp only at h1 h2 h3 h4 h5
  subst h1 h2 h3 h4 h5
  rcases hl with hl | hl | hl <;> subst hl <;> cases ulf <;>
    simp_all [executionWorker, handlerBody, finallyCleanup, tryBlock,
      resolveCmd, HandlerOutput.dbWrites]

/-- Witness for C5: a timed-out python job with partial output on both
streams. -/
theorem C5_timeout_witness :
    timeoutEnv.timerFiresFirst = true
    ∧ (Event.kill ∈ (executionWorker timeoutEnv "e1" "python" "loop").events
       ∧ (executionWorker timeoutEnv "e1" "python" "loop").dbWrites
           = [runningWrite "e1",
              { id := "e1", status := .TIMEOUT, stdout := none,
                stderr := some timeoutSentinel, timeMs := some 43 }]) :=
  ⟨rfl,
   (C5_timeout timeoutEnv "e1" "python" "loop" (Or.inl rfl)
      rfl rfl rfl rfl rfl).1,
   (C5_timeout timeoutEnv "e1" "python" "loop" (Or.inl rfl)
      rfl rfl rfl rfl rfl).2.1⟩

/-- Counterexample to claim C6 as stated: under at-least-once delivery a
second processing of the same job re-runs the handler, whose very first
store write is RUNNING; the combined persisted trace RUNNING, COMPLETED,
RUNNING, COMPLETED leaves a terminal state, and the unconditional
`updateExecutionStatus` overwrite indeed takes the row from COMPLETED
back to RUNNING. -/
theorem C6_counterexample :
    noExitFromTerminal (redeliveredTrace benignEnv "e1" "python" "print(1)")
      = false
    ∧ redeliveredTrace benignEnv "e1" "python" "print(1)"
        = [.RUNNING, .COMPLETED, .RUNNING, .COMPLETED]
    ∧ DB.getExecution
        (applyStatusWrites (DB.createExecution [] "e1" "s1")
          ((executionWorker benignEnv "e1" "python" "print(1)").dbWrites
            ++ [runningWrite "e1"]))
        "e1"
        = some { id := "e1", session_id := "s1", status := .RUNNING,
                 stdout := none, stderr := none,
                 execution_time_ms := none } := by
  decide

/-- Claim C6 as amended: within a single delivery of a job the persisted
status sequence is monotonic — RUNNING first, then at most one terminal
write, and nothing after a terminal write.  (Across redeliveries the
store offers no guard: `updateExecutionStatus` overwrites
unconditionally.) -/
theorem C6_amended (env : WorkerEnv) (executionId language code : String) :
    noExitFromTerminal
      (executionWorker env executionId language code).statusTrace = true := by
  simp only [executionWorker, HandlerOutput.statusTrace,
    dbWrites_finallyCleanup]
  obtain ⟨rwf, wff, spf, tff, pso, pse, ec, em, ef, cwf, chf, ulf⟩ := env
  cases rwf <;> cases wff <;> cases spf <;> cases tff <;>
    cases cwf <;> cases chf <;>
      cases hcmd : resolveCmd language (filePath executionId language) <;>
        simp_all [handlerBody, tryBlock, HandlerOutput.dbWrites,
          noExitFromTerminal, runningWrite, isTerminal_RUNNING]

/-- Claim C7 (confirmed): on every exit path, when the unlink itself
succeeds the temp file is gone after the handler; and an unlink failure
changes neither the handler's outcome nor any persisted status write —
it is logged and swallowed, never a job-level error. -/
theorem C7_cleanup (env : WorkerEnv) (executionId language code : String) :
    (executionWorker { env with unlinkFails := false }
        executionId language code).fileExists = false
    ∧ (executionWorker { env with unlinkFails := true }
          executionId language code).result
        = (executionWorker { env with unlinkFails := false }
            executionId language code).result
    ∧ (executionWorker { env with unlinkFails := true }
          executionId language code).dbWrites
        = (executionWorker { env with unlinkFails := false }
            executionId language code).dbWrites := by
  refine ⟨?_, ?_, ?_⟩
  · exact fileExists_finallyCleanup_false _ _
  · simp only [executionWorker, result_finallyCleanup,
      handlerBody_unlink_irrel]
  · simp only [executionWorker, dbWrites_finallyCleanup,
      handlerBody_unlink_irrel]

/-- Claim C8 (confirmed): `createExecution` inserts the row with status
QUEUED and NULL stdout, stderr and execution_time_ms; and every
non-terminal status write the handler ever issues (its RUNNING
transition) carries NULL for all three fields — only terminal writes
populate them. -/
theorem C8_outputs_unset_until_terminal (s : Store) (id session_id : String)
    (env : WorkerEnv) (executionId language code : String) :
    DB.createExecution s id session_id
      = s ++ [{ id := id, session_id := session_id, status := .QUEUED,
                stdout := none, stderr := none, execution_time_ms := none }]
    ∧ (((executionWorker env executionId language code).dbWrites.filter
          (fun w => !w.status.isTerminal)).all
        (fun w => w.stdout == none && w.stderr == none && w.timeMs == none))
      = true := by
  refine ⟨rfl, ?_⟩
  simp only [executionWorker, dbWrites_finallyCleanup]
  obtain ⟨rwf, wff, spf, tff, pso, pse, ec, em, ef, cwf, chf, ulf⟩ := env
  cases rwf <;> cases wff <;> cases spf <;> cases tff <;>
    cases cwf <;> cases chf <;>
      cases hcmd : resolveCmd language (filePath executionId language) <;>
        simp_all [handlerBody, tryBlock, HandlerOutput.dbWrites,
          runningWrite, isTerminal_classify, isTerminal_RUNNING,
          isTerminal_COMPLETED, isTerminal_FAILED, isTerminal_TIMEOUT]

end Edtronaut
